import Mathlib

/-!
Shallow embedding of the CYD MJPEG video player sketches
(`ArduinoCode/CYD_VideoPlayer.ino`, the V3p0 sketch, and the older
variant sketch) and verification of the spec's testable properties.

The embedding models:
* the polled BOOT-button gesture recognizer `handleBootButton`
  (debounced edges, short press = request next file, long press =
  toggle display inversion, save to NVS and apply to the display);
* the catalog builder `loadMjpegFilesList` in both variants
  (V3p0 filters hidden dotfiles, the older variant does not);
* the per-file playback engine `mjpegPlayFromSDCard` (open failure,
  frame loop with per-frame button polling, one-shot advance flag);
* the top-level cursor update in `loop`;
* the average-FPS computation at the close step of a session.

Machine 32-bit timestamps (`millis()`, `uint32_t`) are modelled as `Nat`
with explicit wrap-around subtraction modulo `2 ^ 32`.
-/

namespace CYD

/-- `uint32_t` wrap-around constant. -/
def U32 : Nat := 2 ^ 32

/-- C `uint32_t` subtraction `a - b` (two's complement wrap-around),
for `a < 2 ^ 32`. -/
def usub32 (a b : Nat) : Nat := (U32 + a - b % U32) % U32

/-- `#define BUTTON_DEBOUNCE_MS 30`. -/
def BUTTON_DEBOUNCE_MS : Nat := 30

/-- `#define LONG_PRESS_MS 1200`. -/
def LONG_PRESS_MS : Nat := 1200

/-- `#define MAX_FILES 20`. -/
def MAX_FILES : Nat := 20

/-- The mutable globals touched by the gesture recognizer and
playback engine: button debounce state (`btnPrev`, `btnDownMs`,
`btnLastChangeMs`), display inversion (`gInvert` in RAM,
`invPersisted` for the NVS record `"disp"/"inv"`, `invApplied` for
the state last pushed to `gfx->invertDisplay`), and the one-shot
advance flag `nextFileRequested`. -/
structure SysState where
  btnPrev : Bool
  btnDownMs : Nat
  btnLastChangeMs : Nat
  gInvert : Bool
  invPersisted : Bool
  invApplied : Bool
  nextFileRequested : Bool
deriving DecidableEq

/-- `saveDisplayPrefs`: `prefs.putBool("inv", gInvert)`. -/
def saveDisplayPrefs (s : SysState) : SysState :=
  { s with invPersisted := s.gInvert }

/-- `applyDisplayPrefs`: `gfx->invertDisplay(gInvert)`. -/
def applyDisplayPrefs (s : SysState) : SysState :=
  { s with invApplied := s.gInvert }

/-- The long-press branch of `handleBootButton`:
`gInvert = !gInvert; saveDisplayPrefs(); applyDisplayPrefs();`. -/
def longPressAction (s : SysState) : SysState :=
  applyDisplayPrefs (saveDisplayPrefs { s with gInvert := !s.gInvert })

/-- `handleBootButton()`: one poll of the BOOT line. `btn` is the raw
level read by `digitalRead(BOOT_PIN)` (`true` = HIGH = idle, `false` =
LOW = pressed), `now` is `millis()`. An edge is accepted only when the
level differs from `btnPrev` and strictly more than
`BUTTON_DEBOUNCE_MS` elapsed since the last accepted change. An
accepted falling edge records `btnDownMs`; an accepted rising edge
classifies `held = now - btnDownMs`: at least `LONG_PRESS_MS` toggles
the inversion (saved and applied), otherwise `nextFileRequested` is
set. -/
def handleBootButton (s : SysState) (btn : Bool) (now : Nat) : SysState :=
  if btn ≠ s.btnPrev ∧ usub32 now s.btnLastChangeMs > BUTTON_DEBOUNCE_MS then
    let s1 : SysState := { s with btnLastChangeMs := now }
    if btn = false then
      { s1 with btnDownMs := now, btnPrev := btn }
    else
      if usub32 now s1.btnDownMs ≥ LONG_PRESS_MS then
        { longPressAction s1 with btnPrev := btn }
      else
        { s1 with nextFileRequested := true, btnPrev := btn }
  else s

/-- Power-on state of the globals: `btnPrev = true` (INPUT_PULLUP idle
HIGH), timers zero, default inversion `gInvert = true`, flag clear. -/
def idleState : SysState :=
  { btnPrev := true
    btnDownMs := 0
    btnLastChangeMs := 0
    gInvert := true
    invPersisted := true
    invApplied := true
    nextFileRequested := false }

lemma usub32_eval (a b : Nat) (hba : b ≤ a) (ha : a < U32) :
    usub32 a b = a - b := by
  unfold usub32 U32 at *
  omega

/-- An accepted falling edge (press) from idle records the press
timestamp. -/
lemma handleBootButton_press (s : SysState) (t : Nat)
    (hidle : s.btnPrev = true)
    (hacc : usub32 t s.btnLastChangeMs > BUTTON_DEBOUNCE_MS) :
    handleBootButton s false t =
      { s with
          btnLastChangeMs := t
          btnDownMs := t
          btnPrev := false } := by
  unfold handleBootButton
  rw [if_pos ⟨by simp [hidle], hacc⟩, if_pos rfl]

/-- A rising edge arriving too soon after the last accepted change is
rejected: the state is unchanged. -/
lemma handleBootButton_release_reject (s : SysState) (t : Nat)
    (hrej : ¬ usub32 t s.btnLastChangeMs > BUTTON_DEBOUNCE_MS) :
    handleBootButton s true t = s := by
  unfold handleBootButton
  rw [if_neg]
  intro hc
  exact hrej hc.2

/-- An accepted rising edge with a sub-long-press held time emits a
short press: `nextFileRequested` is set and nothing else changes
besides the debounce bookkeeping. -/
lemma handleBootButton_release_short (s : SysState) (t : Nat)
    (hprev : s.btnPrev = false)
    (hacc : usub32 t s.btnLastChangeMs > BUTTON_DEBOUNCE_MS)
    (hshort : usub32 t s.btnDownMs < LONG_PRESS_MS) :
    handleBootButton s true t =
      { s with
          btnLastChangeMs := t
          nextFileRequested := true
          btnPrev := true } := by
  unfold handleBootButton
  rw [if_pos ⟨by simp [hprev], hacc⟩, if_neg (by simp), if_neg (by simpa using Nat.not_le.mpr hshort)]

/-- An accepted rising edge with held time at least the long-press
threshold toggles the inversion, persists it and applies it. -/
lemma handleBootButton_release_long (s : SysState) (t : Nat)
    (hprev : s.btnPrev = false)
    (hacc : usub32 t s.btnLastChangeMs > BUTTON_DEBOUNCE_MS)
    (hlong : usub32 t s.btnDownMs ≥ LONG_PRESS_MS) :
    handleBootButton s true t =
      { s with
          btnLastChangeMs := t
          gInvert := !s.gInvert
          invPersisted := !s.gInvert
          invApplied := !s.gInvert
          btnPrev := true } := by
  unfold handleBootButton
  rw [if_pos ⟨by simp [hprev], hacc⟩, if_neg (by simp), if_pos (by simpa using hlong)]
  simp [longPressAction, saveDisplayPrefs, applyDisplayPrefs]

/-! ### Playlist catalog (`loadMjpegFilesList`) -/

/-- Arduino `String::startsWith`, on the underlying character list
(Lean's `String.startsWith` is semantically identical but does not
reduce in the kernel). -/
def strStartsWith (s pre : String) : Bool := pre.data.isPrefixOf s.data

/-- Arduino `String::endsWith`, on the underlying character list. -/
def strEndsWith (s post : String) : Bool := post.data.isSuffixOf s.data

/-- One entry reported by the SD driver while enumerating `/mjpeg`:
`file.name()`, `file.size()` and `file.isDirectory()`. -/
structure DirEntry where
  name : String
  size : Nat
  isDir : Bool
deriving DecidableEq

/-- What the catalog records for an accepted entry:
`mjpegFileList[i] = name` and `mjpegFileSizes[i] = size`. -/
def entryPair (e : DirEntry) : String × Nat := (e.name, e.size)

/-- An entry the V3p0 `loadMjpegFilesList` accepts: not a directory,
not a hidden dotfile, name ending in `".mjpeg"`. -/
def eligibleV3 (e : DirEntry) : Bool :=
  !e.isDir && !strStartsWith e.name "." && strEndsWith e.name ".mjpeg"

/-- The enumeration loop of the V3p0 `loadMjpegFilesList`, with
`count` entries already accepted: skip directories, skip names
starting with `"."`, accept names ending in `".mjpeg"` recording name
and size, and break once `mjpegCount >= MAX_FILES`. -/
def loadMjpegAux : List DirEntry → Nat → List (String × Nat)
  | [], _ => []
  | e :: rest, count =>
    if e.isDir then loadMjpegAux rest count
    else if strStartsWith e.name "." then loadMjpegAux rest count
    else if strEndsWith e.name ".mjpeg" then
      if count + 1 ≥ MAX_FILES then [entryPair e]
      else entryPair e :: loadMjpegAux rest (count + 1)
    else loadMjpegAux rest count

/-- `loadMjpegFilesList` of the V3p0 sketch, as the catalog it builds
from the listing the SD driver reports for `/mjpeg`
(`mjpegCount` starts at 0). -/
def loadMjpegFilesList (entries : List DirEntry) : List (String × Nat) :=
  loadMjpegAux entries 0

/-- The enumeration loop of the older sketch's `loadMjpegFilesList`:
identical except there is no hidden-dotfile filter. -/
def loadMjpegAuxV1 : List DirEntry → Nat → List (String × Nat)
  | [], _ => []
  | e :: rest, count =>
    if e.isDir then loadMjpegAuxV1 rest count
    else if strEndsWith e.name ".mjpeg" then
      if count + 1 ≥ MAX_FILES then [entryPair e]
      else entryPair e :: loadMjpegAuxV1 rest (count + 1)
    else loadMjpegAuxV1 rest count

/-- `loadMjpegFilesList` of the older variant sketch. -/
def loadMjpegFilesListV1 (entries : List DirEntry) : List (String × Nat) :=
  loadMjpegAuxV1 entries 0

/-- The V3p0 enumeration loop builds exactly the first
`MAX_FILES - count` eligible entries, in driver-reported order. -/
lemma loadMjpegAux_eq (entries : List DirEntry) (count : Nat)
    (hc : count < MAX_FILES) :
    loadMjpegAux entries count =
      ((entries.filter eligibleV3).map entryPair).take (MAX_FILES - count) := by
  induction entries generalizing count with
  | nil => simp [loadMjpegAux]
  | cons e rest ih =>
    by_cases hd : e.isDir
    · simp [loadMjpegAux, hd, List.filter_cons, eligibleV3, ih count hc]
    · by_cases hh : strStartsWith e.name "." = true
      · simp [loadMjpegAux, hd, hh, List.filter_cons, eligibleV3, ih count hc]
      · by_cases hm : strEndsWith e.name ".mjpeg" = true
        · have helig : eligibleV3 e = true := by
            simp [eligibleV3, hd, hh, hm]
          by_cases hfull : count + 1 ≥ MAX_FILES
          · have hcount : count = MAX_FILES - 1 := by omega
            simp [loadMjpegAux, hd, hh, hm, hfull, List.filter_cons, helig,
              hcount, List.take_succ_cons]
            simp [MAX_FILES]
          · have h1 : MAX_FILES - count = (MAX_FILES - (count + 1)) + 1 := by
              omega
            simp [loadMjpegAux, hd, hh, hm, hfull, List.filter_cons, helig,
              ih (count + 1) (by omega), h1]
        · simp [loadMjpegAux, hd, hh, hm, List.filter_cons, eligibleV3,
            ih count hc]

/-! ### Playback engine (`mjpegPlayFromSDCard`) and control loop -/

/-- One BOOT-button poll made by the frame loop: the raw level
`digitalRead(BOOT_PIN)` and the value of `millis()` at that poll. -/
structure Poll where
  btn : Bool
  now : Nat
deriving DecidableEq

/-- The frame loop of `mjpegPlayFromSDCard`: each element of `polls`
stands for one iteration in which `mjpegFile.available()` and
`mjpeg.readMjpegBuf()` succeeded; the frame is decoded and drawn,
`total_frames` is incremented, then `handleBootButton()` runs and the
loop breaks if `nextFileRequested` was set. Returns the frame count
and final global state. -/
def frameLoop : SysState → List Poll → Nat × SysState
  | s, [] => (0, s)
  | s, p :: ps =>
    let s1 := handleBootButton s p.btn p.now
    if s1.nextFileRequested then (1, s1)
    else
      let r := frameLoop s1 ps
      (r.1 + 1, r.2)

/-- The result of `SD.open(mjpegFilename, "r")`: whether the handle is
truthy and whether it is a directory. -/
structure FileHandle where
  opens : Bool
  isDir : Bool
deriving DecidableEq

/-- What `mjpegPlayFromSDCard` produces: the returned boolean
(`true` = short press requested the next file, `false` = ended
naturally), the number of frames played, and the global state on
return. -/
structure PlayResult where
  advance : Bool
  frames : Nat
  final : SysState
deriving DecidableEq

/-- `mjpegPlayFromSDCard`: if the open fails or yields a directory,
return `false` immediately with no frames played; otherwise clear
`nextFileRequested`, run the frame loop, read the flag into the return
value and clear it before returning. -/
def mjpegPlayFromSDCard (s : SysState) (f : FileHandle)
    (polls : List Poll) : PlayResult :=
  if !f.opens || f.isDir then
    { advance := false, frames := 0, final := s }
  else
    let r := frameLoop { s with nextFileRequested := false } polls
    { advance := r.2.nextFileRequested
      frames := r.1
      final := { r.2 with nextFileRequested := false } }

/-- The cursor update of `loop()` when a playback returned `true`:
`currentMjpegIndex++; if (currentMjpegIndex >= mjpegCount)
currentMjpegIndex = 0;`. -/
def advanceIndex (count i : Nat) : Nat :=
  if i + 1 ≥ count then 0 else i + 1

/-- One iteration of the `while (true)` body of `loop()` acting on the
cursor: `count` is `mjpegCount`, `i` is `currentMjpegIndex`, `advance`
is the boolean returned by `playSelectedMjpeg`. -/
def loopStep (count i : Nat) (advance : Bool) : Nat :=
  if advance then advanceIndex count i else i

/-- The path `playSelectedMjpeg` hands to `mjpegPlayFromSDCard`:
`String(MJPEG_FOLDER) + "/" + mjpegFileList[mjpegIndex]`. -/
def selectedFullPath (files : List String) (i : Nat) : String :=
  "/mjpeg/" ++ files.getD i ""

/-! ### Average FPS at the close step -/

/-- The V3p0 close step:
`float fps = (time_used > 0) ? (1000.0f * total_frames / time_used) : 0.0f;`
with the exact value of the guarded expression taken in `ℚ`. -/
def computeFps (total_frames time_used : Nat) : ℚ :=
  if 0 < time_used then (1000 * total_frames : ℚ) / time_used else 0

/-- The older sketch's close step:
`float fps = 1000.0 * total_frames / time_used;` — the division is
performed unconditionally; at `time_used = 0` the IEEE quotient is
infinite or NaN, i.e. no finite FPS value exists, modelled as `none`. -/
def computeFpsV1 (total_frames time_used : Nat) : Option ℚ :=
  if time_used = 0 then none
  else some ((1000 * total_frames : ℚ) / time_used)

/-! ## Claims -/

/-- C1 (amended): for a press-release cycle of duration `d` processed
from idle (press edge accepted at `t0`, release polled at `t0 + d`),
the recognizer emits no outcome when `d ≤ BUTTON_DEBOUNCE_MS` (the
code requires strictly more than 30 ms between accepted edges, so the
boundary `d = 30` is silent), exactly one short-press outcome
(`nextFileRequested` set, polarity untouched) when
`BUTTON_DEBOUNCE_MS < d < LONG_PRESS_MS`, and exactly one long-press
outcome (polarity toggled, advance flag untouched) when
`d ≥ LONG_PRESS_MS` — never both. -/
theorem gesture_cycle_classification (s : SysState) (t0 d : Nat)
    (hidle : s.btnPrev = true) (hflag : s.nextFileRequested = false)
    (hacc : usub32 t0 s.btnLastChangeMs > BUTTON_DEBOUNCE_MS)
    (hwrap : t0 + d < U32) :
    (d ≤ BUTTON_DEBOUNCE_MS →
      (handleBootButton (handleBootButton s false t0) true (t0 + d)).nextFileRequested
          = false ∧
      (handleBootButton (handleBootButton s false t0) true (t0 + d)).gInvert
          = s.gInvert) ∧
    (BUTTON_DEBOUNCE_MS < d ∧ d < LONG_PRESS_MS →
      (handleBootButton (handleBootButton s false t0) true (t0 + d)).nextFileRequested
          = true ∧
      (handleBootButton (handleBootButton s false t0) true (t0 + d)).gInvert
          = s.gInvert) ∧
    (LONG_PRESS_MS ≤ d →
      (handleBootButton (handleBootButton s false t0) true (t0 + d)).nextFileRequested
          = false ∧
      (handleBootButton (handleBootButton s false t0) true (t0 + d)).gInvert
          = !s.gInvert) := by
  have h2 := usub32_eval (t0 + d) t0 (Nat.le_add_right t0 d) hwrap
  refine ⟨fun hd => ?_, fun hd => ?_, fun hd => ?_⟩ <;>
    rw [handleBootButton_press s t0 hidle hacc]
  · rw [handleBootButton_release_reject
      { s with btnLastChangeMs := t0, btnDownMs := t0, btnPrev := false }
      (t0 + d)
      (by show ¬ usub32 (t0 + d) t0 > BUTTON_DEBOUNCE_MS; omega)]
    exact ⟨hflag, rfl⟩
  · rw [handleBootButton_release_short
      { s with btnLastChangeMs := t0, btnDownMs := t0, btnPrev := false }
      (t0 + d) rfl
      (by show usub32 (t0 + d) t0 > BUTTON_DEBOUNCE_MS; omega)
      (by show usub32 (t0 + d) t0 < LONG_PRESS_MS; omega)]
    exact ⟨rfl, rfl⟩
  · rw [handleBootButton_release_long
      { s with btnLastChangeMs := t0, btnDownMs := t0, btnPrev := false }
      (t0 + d) rfl
      (by show usub32 (t0 + d) t0 > BUTTON_DEBOUNCE_MS;
          have h3 : BUTTON_DEBOUNCE_MS < LONG_PRESS_MS := by decide
          omega)
      (by show usub32 (t0 + d) t0 ≥ LONG_PRESS_MS; omega)]
    exact ⟨hflag, rfl⟩

/-- C1 (counterexample): a press-release cycle lasting exactly the
debounce interval (press accepted at `t = 100`, release polled at
`t = 130`, so `d = 30`) emits no outcome at all — the claim requires a
short-press outcome for `debounceInterval ≤ d`. -/
theorem gesture_cycle_at_debounce_no_event :
    BUTTON_DEBOUNCE_MS ≤ 30 ∧ 30 < LONG_PRESS_MS ∧
    (handleBootButton (handleBootButton idleState false 100) true 130).nextFileRequested
        = false ∧
    (handleBootButton (handleBootButton idleState false 100) true 130).gInvert
        = idleState.gInvert := by
  decide

/-- C1 (witness): the classification theorem applied to a concrete
2000 ms hold from the power-on state. -/
theorem gesture_cycle_classification_witness :
    idleState.btnPrev = true ∧ idleState.nextFileRequested = false ∧
    usub32 100 idleState.btnLastChangeMs > BUTTON_DEBOUNCE_MS ∧
    100 + 2000 < U32 ∧
    (LONG_PRESS_MS ≤ 2000 →
      (handleBootButton (handleBootButton idleState false 100) true (100 + 2000)).nextFileRequested
          = false ∧
      (handleBootButton (handleBootButton idleState false 100) true (100 + 2000)).gInvert
          = !idleState.gInvert) :=
  ⟨rfl, rfl, by decide, by decide,
    (gesture_cycle_classification idleState 100 2000 rfl rfl (by decide)
      (by decide)).2.2⟩

/-- C2 (amended): when the backing file fails to open or is a
directory, `mjpegPlayFromSDCard` returns `false` (EndedNaturally)
immediately, with zero frames played and the globals untouched — and
the control loop therefore leaves the cursor unchanged and retries the
same failed entry; it does not advance past it. -/
theorem failed_open_ends_naturally (s : SysState) (f : FileHandle)
    (polls : List Poll) (count i : Nat)
    (hfail : (!f.opens || f.isDir) = true) :
    mjpegPlayFromSDCard s f polls =
      { advance := false, frames := 0, final := s } ∧
    loopStep count i (mjpegPlayFromSDCard s f polls).advance = i := by
  have h : mjpegPlayFromSDCard s f polls =
      { advance := false, frames := 0, final := s } := by
    unfold mjpegPlayFromSDCard
    rw [if_pos hfail]
  exact ⟨h, by rw [h]; simp [loopStep]⟩

/-- C2 (counterexample): in a two-entry catalog with the cursor on
entry 0 whose file fails to open, playback returns `false` with no
frames, and the loop keeps the cursor at 0 — the claim requires that
the cursor advance past the failed entry to 1. -/
theorem failed_open_does_not_advance :
    (mjpegPlayFromSDCard idleState { opens := false, isDir := false } []).advance
        = false ∧
    (mjpegPlayFromSDCard idleState { opens := false, isDir := false } []).frames
        = 0 ∧
    loopStep 2 0
      (mjpegPlayFromSDCard idleState { opens := false, isDir := false } []).advance
        = 0 ∧
    (0 : Nat) ≠ 1 := by
  decide

/-- C2 (witness): the amended theorem applied to a directory handle in
a three-entry catalog with the cursor on entry 1. -/
theorem failed_open_ends_naturally_witness :
    ((!(FileHandle.mk true true).opens || (FileHandle.mk true true).isDir) = true) ∧
    loopStep 3 1
      (mjpegPlayFromSDCard idleState { opens := true, isDir := true } []).advance
        = 1 :=
  ⟨by decide,
    (failed_open_ends_naturally idleState ⟨true, true⟩ [] 3 1 (by decide)).2⟩

/-- C4 (amended): the V3p0 close step guards the FPS division — a zero
elapsed time yields 0 without dividing, and a positive elapsed time
yields `1000 * frameCount / elapsedMs`. (The older sketch performs the
division unguarded; see the counterexample.) -/
theorem fps_guarded (frames t : Nat) (ht : 0 < t) :
    computeFps frames 0 = 0 ∧
    computeFps frames t = (1000 * frames : ℚ) / t := by
  constructor
  · simp [computeFps]
  · simp [computeFps, ht]

/-- C4 (counterexample): the older sketch's close step
(`float fps = 1000.0 * total_frames / time_used;`) performs the
division even when `time_used = 0`, producing no finite FPS value —
in particular not the defined result 0 that the claim requires. -/
theorem fpsV1_zero_elapsed_undefined :
    computeFpsV1 0 0 = none ∧ computeFpsV1 0 0 ≠ some 0 := by
  exact ⟨rfl, by decide⟩

/-- C4 (witness): the guarded computation at 50 frames over 2000 ms. -/
theorem fps_guarded_witness :
    0 < 2000 ∧
    (computeFps 50 0 = 0 ∧ computeFps 50 2000 = (1000 * 50 : ℚ) / 2000) :=
  ⟨by decide, fps_guarded 50 2000 (by decide)⟩

/-- C3 (amended): the V3p0 `loadMjpegFilesList` builds exactly the
first `MAX_FILES` eligible entries — non-directories whose name does
not start with `"."` and ends in `".mjpeg"` — recording each accepted
entry's name and byte size in driver-reported order; in particular no
catalog entry's name starts with `"."`. (The older variant sketch has
no hidden-file filter and does accept dot-named files; see the
counterexample.) -/
theorem catalog_filter_correct (entries : List DirEntry) (p : String × Nat)
    (hp : p ∈ loadMjpegFilesList entries) :
    loadMjpegFilesList entries =
      ((entries.filter eligibleV3).map entryPair).take MAX_FILES ∧
    strStartsWith p.1 "." = false ∧
    strEndsWith p.1 ".mjpeg" = true ∧
    ∃ e, e ∈ entries ∧ e.isDir = false ∧ e.name = p.1 ∧ e.size = p.2 := by
  have hchar : loadMjpegFilesList entries =
      ((entries.filter eligibleV3).map entryPair).take MAX_FILES := by
    have h0 := loadMjpegAux_eq entries 0 (by decide)
    simpa [loadMjpegFilesList] using h0
  refine ⟨hchar, ?_⟩
  rw [hchar] at hp
  have hp2 : p ∈ (entries.filter eligibleV3).map entryPair :=
    List.mem_of_mem_take hp
  obtain ⟨e, he, hpe⟩ := List.mem_map.mp hp2
  obtain ⟨hmem, helig⟩ := List.mem_filter.mp he
  have hdir : e.isDir = false := by
    revert helig
    unfold eligibleV3
    cases e.isDir <;> simp
  have hhid : strStartsWith e.name "." = false := by
    revert helig
    unfold eligibleV3
    cases hsw : strStartsWith e.name "." <;> simp
  have hsuf : strEndsWith e.name ".mjpeg" = true := by
    revert helig
    unfold eligibleV3
    cases hsw : strEndsWith e.name ".mjpeg" <;> simp
  have hn : e.name = p.1 := by rw [← hpe]; rfl
  have hs : e.size = p.2 := by rw [← hpe]; rfl
  exact ⟨hn ▸ hhid, hn ▸ hsuf, e, hmem, hdir, hn, hs⟩

/-- C3 (counterexample): the older sketch's `loadMjpegFilesList` puts
the macOS AppleDouble artifact `"._video.mjpeg"`, whose name begins
with the hidden-file marker, into the catalog. -/
theorem catalogV1_accepts_hidden :
    loadMjpegFilesListV1 [{ name := "._video.mjpeg", size := 5, isDir := false }] =
      [("._video.mjpeg", 5)] ∧
    strStartsWith "._video.mjpeg" "." = true := by
  constructor
  · rfl
  · decide

/-- C3 (witness): the amended theorem applied to a one-entry listing. -/
theorem catalog_filter_correct_witness :
    ("a.mjpeg", 3) ∈
      loadMjpegFilesList [{ name := "a.mjpeg", size := 3, isDir := false }] ∧
    strStartsWith "a.mjpeg" "." = false ∧
    strEndsWith "a.mjpeg" ".mjpeg" = true :=
  ⟨by decide,
    (catalog_filter_correct [{ name := "a.mjpeg", size := 3, isDir := false }]
      ("a.mjpeg", 3) (by decide)).2.1,
    (catalog_filter_correct [{ name := "a.mjpeg", size := 3, isDir := false }]
      ("a.mjpeg", 3) (by decide)).2.2.1⟩

/-- C5: if a directory listing with pairwise-distinct names holds more
than `MAX_FILES` eligible entries, the catalog is exactly the first
`MAX_FILES` eligible entries, has length exactly `MAX_FILES`, and the
`(MAX_FILES + 1)`-th eligible entry never appears in it (enumeration
simply breaks, no error value exists). -/
theorem catalog_cap (entries : List DirEntry)
    (hnd : (entries.map DirEntry.name).Nodup)
    (h : MAX_FILES < ((entries.filter eligibleV3).map entryPair).length) :
    loadMjpegFilesList entries =
      ((entries.filter eligibleV3).map entryPair).take MAX_FILES ∧
    (loadMjpegFilesList entries).length = MAX_FILES ∧
    ((entries.filter eligibleV3).map entryPair).get ⟨MAX_FILES, h⟩ ∉
      loadMjpegFilesList entries := by
  have hchar : loadMjpegFilesList entries =
      ((entries.filter eligibleV3).map entryPair).take MAX_FILES := by
    have h0 := loadMjpegAux_eq entries 0 (by decide)
    simpa [loadMjpegFilesList] using h0
  have hlen : (loadMjpegFilesList entries).length = MAX_FILES := by
    rw [hchar, List.length_take]
    omega
  have hnodup : ((entries.filter eligibleV3).map entryPair).Nodup := by
    have hsub : (entries.filter eligibleV3).Sublist entries :=
      List.filter_sublist entries
    have hnames : ((entries.filter eligibleV3).map DirEntry.name).Nodup :=
      hnd.sublist (hsub.map DirEntry.name)
    have hfst : ((entries.filter eligibleV3).map entryPair).map Prod.fst =
        (entries.filter eligibleV3).map DirEntry.name := by
      rw [List.map_map]
      rfl
    exact List.Nodup.of_map Prod.fst (by rw [hfst]; exact hnames)
  refine ⟨hchar, hlen, fun hmem => ?_⟩
  rw [hchar] at hmem
  have hdisj : List.Disjoint
      (((entries.filter eligibleV3).map entryPair).take MAX_FILES)
      (((entries.filter eligibleV3).map entryPair).drop MAX_FILES) :=
    List.disjoint_take_drop hnodup le_rfl
  have hdrop : ((entries.filter eligibleV3).map entryPair).drop MAX_FILES =
      ((entries.filter eligibleV3).map entryPair).get ⟨MAX_FILES, h⟩ ::
        ((entries.filter eligibleV3).map entryPair).drop (MAX_FILES + 1) := by
    rw [List.drop_eq_getElem_cons h, List.get_eq_getElem]
  exact hdisj hmem (hdrop ▸ List.mem_cons_self _ _)

/-- A listing of `MAX_FILES + 1 = 21` eligible files with distinct
names, used to witness the cap. -/
def capEntries : List DirEntry :=
  [{ name := "f01.mjpeg", size := 1, isDir := false },
   { name := "f02.mjpeg", size := 2, isDir := false },
   { name := "f03.mjpeg", size := 3, isDir := false },
   { name := "f04.mjpeg", size := 4, isDir := false },
   { name := "f05.mjpeg", size := 5, isDir := false },
   { name := "f06.mjpeg", size := 6, isDir := false },
   { name := "f07.mjpeg", size := 7, isDir := false },
   { name := "f08.mjpeg", size := 8, isDir := false },
   { name := "f09.mjpeg", size := 9, isDir := false },
   { name := "f10.mjpeg", size := 10, isDir := false },
   { name := "f11.mjpeg", size := 11, isDir := false },
   { name := "f12.mjpeg", size := 12, isDir := false },
   { name := "f13.mjpeg", size := 13, isDir := false },
   { name := "f14.mjpeg", size := 14, isDir := false },
   { name := "f15.mjpeg", size := 15, isDir := false },
   { name := "f16.mjpeg", size := 16, isDir := false },
   { name := "f17.mjpeg", size := 17, isDir := false },
   { name := "f18.mjpeg", size := 18, isDir := false },
   { name := "f19.mjpeg", size := 19, isDir := false },
   { name := "f20.mjpeg", size := 20, isDir := false },
   { name := "f21.mjpeg", size := 21, isDir := false }]

/-- C5 (witness): the cap theorem applied to a 21-file listing. -/
theorem catalog_cap_witness :
    (capEntries.map DirEntry.name).Nodup ∧
    MAX_FILES < ((capEntries.filter eligibleV3).map entryPair).length ∧
    (loadMjpegFilesList capEntries).length = MAX_FILES :=
  ⟨by decide, by decide, (catalog_cap capEntries (by decide) (by decide)).2.1⟩

/-- C6: when a playback returns `true` (AdvanceRequested), the cursor
update of `loop()` maps index `i < mjpegCount - 1` to `i + 1` and the
last index `mjpegCount - 1` to 0. -/
theorem cursor_advance (count i : Nat) (hi : i < count) :
    (i < count - 1 → loopStep count i true = i + 1) ∧
    (i = count - 1 → loopStep count i true = 0) := by
  have ht : loopStep count i true = advanceIndex count i := by
    simp [loopStep]
  refine ⟨fun h => ?_, fun h => ?_⟩ <;> rw [ht] <;> unfold advanceIndex
  · rw [if_neg (by omega)]
  · rw [if_pos (by omega)]

/-- C6 (witness): advancing from index 1 of a 3-entry catalog. -/
theorem cursor_advance_witness :
    1 < 3 ∧
    ((1 < 3 - 1 → loopStep 3 1 true = 1 + 1) ∧
     (1 = 3 - 1 → loopStep 3 1 true = 0)) :=
  ⟨by decide, cursor_advance 3 1 (by decide)⟩

/-- C7: when a playback ends naturally (`playSelectedMjpeg` returned
`false`), the `loop()` body leaves `currentMjpegIndex` unchanged, so
the next iteration opens the very same path
`"/mjpeg/" + mjpegFileList[i]` again. -/
theorem natural_end_replays (count i : Nat) (files : List String) :
    loopStep count i false = i ∧
    selectedFullPath files (loopStep count i false) =
      selectedFullPath files i := by
  constructor <;> simp [loopStep]

/-- C8: the long-press action (`gInvert = !gInvert;
saveDisplayPrefs(); applyDisplayPrefs();`) applied twice restores the
original polarity, and after each single application the persisted NVS
value equals the in-memory `gInvert`. -/
theorem invert_toggle_involutive (s : SysState) :
    (longPressAction (longPressAction s)).gInvert = s.gInvert ∧
    (longPressAction s).invPersisted = (longPressAction s).gInvert ∧
    (longPressAction (longPressAction s)).invPersisted =
      (longPressAction (longPressAction s)).gInvert := by
  simp [longPressAction, saveDisplayPrefs, applyDisplayPrefs]

/-- C9: one iteration of the control loop keeps the cursor inside the
catalog: for a non-empty catalog and any in-range index, the updated
index is in range whether the playback requested an advance or ended
naturally. -/
theorem cursor_invariant (count i : Nat) (advance : Bool)
    (hc : 1 ≤ count) (hi : i < count) :
    loopStep count i advance < count := by
  cases advance
  · simpa [loopStep] using hi
  · have ht : loopStep count i true = advanceIndex count i := by
      simp [loopStep]
    rw [ht]
    unfold advanceIndex
    split
    · omega
    · omega

/-- C9 (witness): the invariant at the last index of a 2-entry
catalog with an advance request. -/
theorem cursor_invariant_witness :
    1 ≤ 2 ∧ 1 < 2 ∧ loopStep 2 1 true < 2 :=
  ⟨by decide, by decide, cursor_invariant 2 1 true (by decide) (by decide)⟩

/-- C10: whenever `mjpegPlayFromSDCard` returns from a session whose
file opened successfully (handle truthy and not a directory), the
one-shot `nextFileRequested` flag is `false`: it is cleared at session
start, and a short press during the frame loop is read into the return
value and cleared before returning, so a pending request never carries
into the next session. -/
theorem advance_flag_cleared (s : SysState) (f : FileHandle)
    (polls : List Poll)
    (hopen : f.opens = true) (hdir : f.isDir = false) :
    (mjpegPlayFromSDCard s f polls).final.nextFileRequested = false := by
  unfold mjpegPlayFromSDCard
  rw [if_neg (by simp [hopen, hdir])]

/-- C10 (witness): a successful zero-frame session from the power-on
state. -/
theorem advance_flag_cleared_witness :
    (FileHandle.mk true false).opens = true ∧
    (FileHandle.mk true false).isDir = false ∧
    (mjpegPlayFromSDCard idleState { opens := true, isDir := false }
      []).final.nextFileRequested = false :=
  ⟨rfl, rfl, advance_flag_cleared idleState { opens := true, isDir := false }
    [] rfl rfl⟩

end CYD
